import Mathlib

/-!
Formal model of the camera-screen core of the Drone Vision mobile client:
the aspect-fill coordinate mapper, the transport timeout model, the
processFrame reconciliation step, the rolling diagnostic log, and the
auto-scan scheduling loop, embedded from the React Native camera screen
source.

Conventions of the embedding:
- Numeric values (pixel coordinates, scale factors, times in ms) are
  modelled over ℚ.  JavaScript float formatting inside log strings is
  abstracted by toString.  Division by zero over ℚ yields 0 where
  JavaScript floats yield non-finite values, so theorems about
  zero-dimension frames assert only branch structure (which path runs,
  which fields are written), never the degenerate numeric values.
- React state updates are modelled as sequential record updates on a
  SessionState value; the functional updaters (prev plus one) are kept
  exactly.
- Side effects carrying no session state (haptics, speech, animations,
  console logging) are omitted.  The Alert.alert call in the manual-mode
  catch branch is the Boolean second component of processFrame's result.
- The fetch call together with its AbortController timer is modelled by
  the transport function: a response slower than the timeout resolves as
  a rejection, otherwise the parsed response is delivered.
- The async auto-scan loop is modelled by loopIter: one iteration records
  the delay computed at its start, awaits the submission (completion time
  is an oracle parameter) and arms the timer for the next invocation only
  after that completion, exactly as the source awaits processFrame before
  calling setTimeout.
-/

/-- A detection bounding box, four coordinates x1 y1 x2 y2, either in
captured-image pixel space (as returned by the server) or in display
space (after mapping). -/
structure BBox where
  x1 : ℚ
  y1 : ℚ
  x2 : ℚ
  y2 : ℚ
  deriving DecidableEq, Repr

/-- The best_match object of a response body: label, confidence and an
optional bounding box.  The free-form details map is omitted (pure
presentation data, never branched on by the core). -/
structure MatchResult where
  label : String
  confidence : Option ℚ
  bbox : Option BBox
  deriving DecidableEq, Repr

/-- The activeBox state: a display-space box plus its label. -/
structure ActiveBox where
  bbox : BBox
  label : String
  deriving DecidableEq, Repr

/-- Parsed JSON body of a 2xx response: the skipped flag, the optional
best_match, and the optional metrics fps value. -/
structure ResponseData where
  skipped : Bool
  best_match : Option MatchResult
  fps : Option ℚ
  deriving DecidableEq, Repr

/-- Resolution of the fetch call: a parsed body, or a rejection (network
error, abort, or the non-2xx status rethrown as an Error). -/
inductive FetchResult where
  | ok (data : ResponseData)
  | err (message : String)
  deriving DecidableEq, Repr

/-- The camera screen's session state: the useState hooks scanning,
result, isConnected, logs, frameCounter, fps and activeBox.  The zoom and
torch hooks are omitted (camera hardware settings, untouched by the
scan/reconciliation logic). -/
structure SessionState where
  scanning : Bool
  result : Option MatchResult
  isConnected : Bool
  logs : List String
  frameCounter : Nat
  fps : ℚ
  activeBox : Option ActiveBox
  deriving DecidableEq, Repr

/-- Initial hook values at screen entry. -/
def initialState : SessionState :=
  { scanning := false
    result := none
    isConnected := true
    logs := ["SYSTEM INITIALIZED...", "SENSORS ONLINE"]
    frameCounter := 0
    fps := 0
    activeBox := none }

/-- addLog: prepend the new entry and keep the first 6. -/
def addLog (text : String) (logs : List String) : List String :=
  (text :: logs).take 6

/-- Aspect-fill scale: max of viewW over imgW and viewH over imgH. -/
def coverScale (viewW viewH imgW imgH : ℚ) : ℚ :=
  max (viewW / imgW) (viewH / imgH)

/-- Horizontal centering offset: half of viewW minus the scaled width. -/
def coverOffsetX (viewW viewH imgW imgH : ℚ) : ℚ :=
  (viewW - imgW * coverScale viewW viewH imgW imgH) / 2

/-- Vertical centering offset: half of viewH minus the scaled height. -/
def coverOffsetY (viewW viewH imgW imgH : ℚ) : ℚ :=
  (viewH - imgH * coverScale viewW viewH imgW imgH) / 2

/-- The scaledBox computation: each corner mapped by scale and offset. -/
def mapBox (viewW viewH imgW imgH : ℚ) (b : BBox) : BBox :=
  let scale := coverScale viewW viewH imgW imgH
  let offsetX := coverOffsetX viewW viewH imgW imgH
  let offsetY := coverOffsetY viewW viewH imgW imgH
  { x1 := b.x1 * scale + offsetX
    y1 := b.y1 * scale + offsetY
    x2 := b.x2 * scale + offsetX
    y2 := b.y2 * scale + offsetY }

/-- Following the spec's words (coordinate-mapper edge case), for
comparison with the code's mapBox: the specified mapper fails on a
zero-dimension frame instead of computing. -/
def mapBoxSpecChecked (viewW viewH imgW imgH : ℚ) (b : BBox) : Option BBox :=
  if imgW = 0 ∨ imgH = 0 then none
  else some (mapBox viewW viewH imgW imgH b)

/-- The placeholder result set when a response carries no best_match. -/
def noMatchResult : MatchResult :=
  { label := "No Match", confidence := none, bbox := none }

/-- The synchronous prefix of processFrame once past the reentrancy
guard: set scanning, and on a manual scan clear the previous result
(activeBox is not touched here). -/
def frameStart (isManualScan : Bool) (s : SessionState) : SessionState :=
  let s1 := { s with scanning := true }
  if isManualScan then { s1 with result := none } else s1

/-- Everything processFrame does from the resolution of the fetch call to
the end: the skipped branch, the fps metric, the best_match handling with
the scaled box, the frame-counter update, the processing-time log, the
catch branch, and the finally clause.  The Boolean result records whether
the blocking alert was raised.  pt is the measured processing time in ms. -/
def frameComplete (isManualScan isAutoScan : Bool)
    (viewW viewH photoW photoH : ℚ) (fr : FetchResult) (pt : Nat)
    (s : SessionState) : SessionState × Bool :=
  match fr with
  | .err msg =>
      let s1 := { s with isConnected := false,
                         logs := addLog ("ERROR: " ++ msg.take 20) s.logs }
      ({ s1 with scanning := false }, isManualScan)
  | .ok data =>
      let s1 := { s with isConnected := true }
      if data.skipped then
        ({ s1 with scanning := false, frameCounter := s1.frameCounter + 1 }, false)
      else
        let s2 := match data.fps with
          | some f =>
              if isAutoScan ∧ f ≠ 0 then
                { s1 with fps := f, logs := addLog ("FPS: " ++ toString f) s1.logs }
              else s1
          | none => s1
        let s3 := match data.best_match with
          | some m =>
              let sa := { s2 with result := some m }
              let sb := match m.bbox with
                | some b =>
                    let box : ActiveBox :=
                      { bbox := mapBox viewW viewH photoW photoH b
                        label := m.label }
                    { sa with activeBox := some box }
                | none => sa
              if isAutoScan then
                { sb with logs := addLog ("DETECTED: " ++ m.label.toUpper) sb.logs }
              else sb
          | none => { s2 with result := some noMatchResult, activeBox := none }
        let s4 := if isAutoScan then { s3 with frameCounter := s3.frameCounter + 1 } else s3
        let s5 := if isAutoScan ∧ pt < 100 then
            { s4 with logs := addLog ("PROCESSING: " ++ toString pt ++ "ms") s4.logs }
          else s4
        ({ s5 with scanning := false }, false)

/-- One whole processFrame call, with the reentrancy guard (a manual call
while scanning is refused; auto-mode calls are never refused).  The flags
are the values captured by the closure when the call was issued. -/
def processFrame (isManualScan isAutoScan : Bool)
    (viewW viewH photoW photoH : ℚ) (fr : FetchResult) (pt : Nat)
    (s : SessionState) : SessionState × Bool :=
  if s.scanning ∧ ¬ isAutoScan then (s, false)
  else
    frameComplete isManualScan isAutoScan viewW viewH photoW photoH fr pt
      (frameStart isManualScan s)

/-- The AbortController timer duration: 5000 ms streaming, 15000 ms
manual. -/
def timeoutMs (isAutoScan : Bool) : Nat :=
  if isAutoScan then 5000 else 15000

/-- The fetch call bounded by its abort timer: a response slower than the
timeout is aborted and rejects; otherwise the response is delivered. -/
def transport (isAutoScan : Bool) (latencyMs : Nat) (resp : FetchResult) :
    FetchResult :=
  if timeoutMs isAutoScan < latencyMs then .err "Aborted" else resp

/-- The auto-scan loop's target inter-frame interval in ms. -/
def targetInterval : ℚ := 1000 / 15

/-- The adaptive delay computed at the top of a loop iteration. -/
def loopDelay (lastFrameTime now : ℚ) : ℚ :=
  max 0 (targetInterval - (now - lastFrameTime))

/-- Result of one loop iteration: when the next loop invocation (and so
the next submission) fires, and the recorded lastFrameTime. -/
structure LoopIter where
  nextCall : ℚ
  newLastFrameTime : ℚ
  deriving DecidableEq, Repr

/-- One iteration of the auto-scan loop: the delay is computed at the
iteration start (time now), processFrame is awaited (resolving at time
completion), lastFrameTime is set to the completion time, and only then
is the timer for the next invocation armed with the delay. -/
def loopIter (lastFrameTime now completion : ℚ) : LoopIter :=
  { nextCall := completion + loopDelay lastFrameTime now
    newLastFrameTime := completion }

/-- The guard at the top of a loop iteration: the iteration proceeds only
while the effect is active and auto mode is on. -/
def loopRuns (isActive isAutoScan : Bool) : Bool :=
  isActive && isAutoScan

/-- The guard in front of setTimeout: the next iteration is armed only
while the effect is active and auto mode is on. -/
def loopSchedulesNext (isActive isAutoScan : Bool) : Bool :=
  isActive && isAutoScan

/-- The mode-change effect body: entering auto logs the banner; entering
manual logs the banner and clears the active box. -/
def toggleAutoEffect (newIsAutoScan : Bool) (s : SessionState) : SessionState :=
  if newIsAutoScan then { s with logs := addLog "AUTO-SCAN ENABLED" s.logs }
  else { s with logs := addLog "MANUAL MODE" s.logs, activeBox := none }

/-- Shared helper: the aspect-fill scale of the manual-scenario frame,
capture 640 x 480 against viewport 1080 x 1920, evaluates to 4. -/
theorem coverScale_scenario : coverScale 1080 1920 640 480 = 4 := by
  rw [coverScale, max_eq_right] <;> norm_num

/-- C1: for every captured frame of positive dimensions and viewport, the
mapper computes scale as the larger of the two ratios, centering offsets
as half the viewport-minus-scaled-image difference, and maps every corner
by x times scale plus offset; on capture 640 x 480, viewport 1080 x 1920
and bbox 100 100 200 200 this gives scale 4, offsetX -740, offsetY 0 and
the final box -340 400 60 800. -/
theorem c1_cover_mapping (imgW imgH viewW viewH : ℚ)
    (hW : 0 < imgW) (hH : 0 < imgH) (b : BBox) :
    coverScale viewW viewH imgW imgH = max (viewW / imgW) (viewH / imgH) ∧
    coverOffsetX viewW viewH imgW imgH
      = (viewW - imgW * coverScale viewW viewH imgW imgH) / 2 ∧
    coverOffsetY viewW viewH imgW imgH
      = (viewH - imgH * coverScale viewW viewH imgW imgH) / 2 ∧
    mapBox viewW viewH imgW imgH b
      = { x1 := b.x1 * coverScale viewW viewH imgW imgH
              + coverOffsetX viewW viewH imgW imgH
          y1 := b.y1 * coverScale viewW viewH imgW imgH
              + coverOffsetY viewW viewH imgW imgH
          x2 := b.x2 * coverScale viewW viewH imgW imgH
              + coverOffsetX viewW viewH imgW imgH
          y2 := b.y2 * coverScale viewW viewH imgW imgH
              + coverOffsetY viewW viewH imgW imgH } ∧
    coverScale 1080 1920 640 480 = 4 ∧
    coverOffsetX 1080 1920 640 480 = -740 ∧
    coverOffsetY 1080 1920 640 480 = 0 ∧
    mapBox 1080 1920 640 480 ⟨100, 100, 200, 200⟩ = ⟨-340, 400, 60, 800⟩ := by
  refine ⟨rfl, rfl, rfl, rfl, coverScale_scenario, ?_, ?_, ?_⟩
  · simp [coverOffsetX, coverScale_scenario]
    norm_num
  · simp [coverOffsetY, coverScale_scenario]
    norm_num
  · simp [mapBox, coverOffsetX, coverOffsetY, coverScale_scenario]
    norm_num

theorem c1_cover_mapping_witness :
    mapBox 1080 1920 640 480 ⟨100, 100, 200, 200⟩ = ⟨-340, 400, 60, 800⟩ :=
  (c1_cover_mapping 640 480 1080 1920 (by norm_num) (by norm_num)
    ⟨100, 100, 200, 200⟩).2.2.2.2.2.2.2

/-- C2 counterexample: with the previous frame time 0, a cycle starting
at time 0 whose submission completes only at time 1000 ms.  The source
loop awaits processFrame before arming the timer, so the next cycle fires
at 1000 plus the delay, not at 0 plus the delay as the claim states (the
delay being measured from the moment the submission was issued); the next
submission is issued no earlier than the current completion, so the two
are never in flight together. -/
theorem c2_counterexample :
    (loopIter 0 0 1000).nextCall = 1000 + loopDelay 0 0 ∧
    (loopIter 0 0 1000).nextCall ≠ 0 + loopDelay 0 0 ∧
    (1000 : ℚ) ≤ (loopIter 0 0 1000).nextCall := by
  refine ⟨rfl, ?_, ?_⟩
  · simp [loopIter, loopDelay, targetInterval]
  · simp [loopIter, loopDelay, targetInterval]

/-- C2 amended: in auto mode the loop computes the adaptive delay
max 0 (targetInterval - (now - lastFrameTime)) at the start of the cycle,
awaits the current submission, records its completion time as the new
lastFrameTime, and only then schedules the next cycle after the delay
counted from the completion; the next submission is therefore never
issued before the current one completes — consecutive auto-mode
submissions of the loop are serialized, not overlapping. -/
theorem c2_loop_serial (lastFrameTime now completion : ℚ) :
    (loopIter lastFrameTime now completion).nextCall
      = completion + loopDelay lastFrameTime now ∧
    loopDelay lastFrameTime now
      = max 0 (targetInterval - (now - lastFrameTime)) ∧
    completion ≤ (loopIter lastFrameTime now completion).nextCall ∧
    (loopIter lastFrameTime now completion).newLastFrameTime = completion := by
  refine ⟨rfl, rfl, ?_, rfl⟩
  have h : (0 : ℚ) ≤ loopDelay lastFrameTime now := le_max_left 0 _
  simpa [loopIter] using add_le_add_left h completion

/-- C3: submissions are bounded by a 15000 ms timeout when manual and a
5000 ms timeout when streaming; a response slower than the bound is
aborted and the call resolves as an error, and in the manual case the
catch branch then raises the blocking alert, sets connectivity Offline
and the finally clause returns scanning to idle. -/
theorem c3_timeout (latencyM latencyS : Nat) (resp : FetchResult)
    (viewW viewH photoW photoH : ℚ) (pt : Nat) (s : SessionState)
    (hM : 15000 < latencyM) (hS : 5000 < latencyS)
    (hIdle : s.scanning = false) :
    timeoutMs false = 15000 ∧
    timeoutMs true = 5000 ∧
    transport false latencyM resp = .err "Aborted" ∧
    transport true latencyS resp = .err "Aborted" ∧
    (processFrame true false viewW viewH photoW photoH
        (transport false latencyM resp) pt s).2 = true ∧
    (processFrame true false viewW viewH photoW photoH
        (transport false latencyM resp) pt s).1.scanning = false ∧
    (processFrame true false viewW viewH photoW photoH
        (transport false latencyM resp) pt s).1.isConnected = false := by
  have htM : transport false latencyM resp = .err "Aborted" := by
    simp [transport, timeoutMs, hM]
  have htS : transport true latencyS resp = .err "Aborted" := by
    simp [transport, timeoutMs, hS]
  refine ⟨rfl, rfl, htM, htS, ?_, ?_, ?_⟩ <;>
    simp [htM, processFrame, frameStart, frameComplete, hIdle]

theorem c3_timeout_witness :
    (processFrame true false 1080 1920 640 480
        (transport false 15001 (.ok ⟨false, none, none⟩)) 0 initialState).2
      = true :=
  (c3_timeout 15001 5001 (.ok ⟨false, none, none⟩) 1080 1920 640 480 0
    initialState (by norm_num) (by norm_num) rfl).2.2.2.2.1

/-- C4: a Failure outcome raises the blocking alert exactly when the call
was a manual scan — never in auto mode, always in manual mode (manual
calls are accepted only from idle) — and in both modes sets connectivity
Offline and prepends an ERROR diagnostic entry carrying the truncated
reason. -/
theorem c4_failure_handling (msg : String) (viewW viewH photoW photoH : ℚ)
    (pt : Nat) (s : SessionState) (hIdle : s.scanning = false) :
    (processFrame false true viewW viewH photoW photoH (.err msg) pt s).2
      = false ∧
    (processFrame false true viewW viewH photoW photoH
        (.err msg) pt s).1.isConnected = false ∧
    (processFrame false true viewW viewH photoW photoH
        (.err msg) pt s).1.logs.head? = some ("ERROR: " ++ msg.take 20) ∧
    (processFrame true false viewW viewH photoW photoH (.err msg) pt s).2
      = true ∧
    (processFrame true false viewW viewH photoW photoH
        (.err msg) pt s).1.isConnected = false ∧
    (processFrame true false viewW viewH photoW photoH
        (.err msg) pt s).1.logs.head? = some ("ERROR: " ++ msg.take 20) := by
  refine ⟨?_, ?_, ?_, ?_, ?_, ?_⟩ <;>
    simp [processFrame, frameStart, frameComplete, addLog, hIdle]

theorem c4_failure_handling_witness :
    (processFrame false true 1080 1920 640 480
        (.err "Network request failed") 0 initialState).2 = false ∧
    (processFrame true false 1080 1920 640 480
        (.err "Network request failed") 0 initialState).2 = true :=
  ⟨(c4_failure_handling "Network request failed" 1080 1920 640 480 0
      initialState rfl).1,
   (c4_failure_handling "Network request failed" 1080 1920 640 480 0
      initialState rfl).2.2.2.1⟩

/-- C5: a Skipped outcome in streaming mode increments the frame counter
by exactly one and leaves the result, overlay box and diagnostic log
untouched, raising no alert and returning scanning to idle; in
particular a skip acknowledged at counter 7 leaves the counter at 8. -/
theorem c5_skipped (bm : Option MatchResult) (f : Option ℚ)
    (viewW viewH photoW photoH : ℚ) (pt : Nat) (s : SessionState) :
    (processFrame false true viewW viewH photoW photoH
        (.ok { skipped := true, best_match := bm, fps := f }) pt
        s).1.frameCounter = s.frameCounter + 1 ∧
    (processFrame false true viewW viewH photoW photoH
        (.ok { skipped := true, best_match := bm, fps := f }) pt
        s).1.result = s.result ∧
    (processFrame false true viewW viewH photoW photoH
        (.ok { skipped := true, best_match := bm, fps := f }) pt
        s).1.activeBox = s.activeBox ∧
    (processFrame false true viewW viewH photoW photoH
        (.ok { skipped := true, best_match := bm, fps := f }) pt
        s).1.logs = s.logs ∧
    (processFrame false true viewW viewH photoW photoH
        (.ok { skipped := true, best_match := bm, fps := f }) pt s).2
      = false ∧
    (processFrame false true viewW viewH photoW photoH
        (.ok { skipped := true, best_match := bm, fps := f }) pt
        s).1.scanning = false ∧
    (processFrame false true 1080 1920 640 480
        (.ok { skipped := true, best_match := none, fps := none }) 0
        { initialState with frameCounter := 7 }).1.frameCounter = 8 := by
  refine ⟨?_, ?_, ?_, ?_, ?_, ?_, ?_⟩ <;>
    simp [processFrame, frameStart, frameComplete, initialState]

/-- C6: the diagnostic log is most-recent-first and never exceeds 6
entries: every append prepends the new entry, an append onto a full log
drops the oldest entry, and after seven appends onto the empty log the
first entry has been evicted, leaving the last six newest-first. -/
theorem c6_log_capacity (t e1 e2 e3 e4 e5 e6 e7 : String)
    (l : List String) :
    (addLog t l).length ≤ 6 ∧
    (addLog t l).head? = some t ∧
    (l.length = 6 → addLog t l = t :: l.take 5) ∧
    List.foldl (fun acc e => addLog e acc) []
        [e1, e2, e3, e4, e5, e6, e7] = [e7, e6, e5, e4, e3, e2] := by
  refine ⟨?_, ?_, ?_, rfl⟩
  · simp [addLog]
  · simp [addLog]
  · intro h
    simp [addLog, List.take_succ_cons]

theorem c6_log_capacity_witness :
    ["L1", "L2", "L3", "L4", "L5", "L6"].length = 6 ∧
    addLog "L7" ["L1", "L2", "L3", "L4", "L5", "L6"]
      = "L7" :: ["L1", "L2", "L3", "L4", "L5", "L6"].take 5 :=
  ⟨rfl, (c6_log_capacity "L7" "a" "b" "c" "d" "e" "f" "g"
      ["L1", "L2", "L3", "L4", "L5", "L6"]).2.2.1 rfl⟩

/-- C7 counterexample: from the initial state, a manual scan succeeding
with the match labelled cat and box 100 100 200 200 leaves the overlay
box set; starting a second manual scan then clears latestResult to null
while leaving that overlay box in place, so a reachable state has a
non-null overlayBox with a null latestResult — the pair is not cleared
atomically and the claimed invariant fails. -/
theorem c7_counterexample :
    (frameStart true (processFrame true false 1080 1920 640 480
        (.ok { skipped := false
               best_match := some { label := "cat", confidence := some (9/10),
                                    bbox := some ⟨100, 100, 200, 200⟩ }
               fps := none }) 0 initialState).1).result = none ∧
    (frameStart true (processFrame true false 1080 1920 640 480
        (.ok { skipped := false
               best_match := some { label := "cat", confidence := some (9/10),
                                    bbox := some ⟨100, 100, 200, 200⟩ }
               fps := none }) 0 initialState).1).activeBox.isSome = true := by
  constructor <;> simp [processFrame, frameStart, frameComplete, initialState]

/-- C7 amended: the pair is not maintained atomically: starting a manual
scan clears latestResult while leaving overlayBox exactly as it was (so
overlayBox non-null with latestResult null is reachable); the two are
cleared together only in the no-match success branch, which sets
latestResult to the No Match placeholder and overlayBox to null. -/
theorem c7_overlay_result (s : SessionState) (f : Option ℚ)
    (viewW viewH photoW photoH : ℚ) (pt : Nat) :
    (frameStart true s).result = none ∧
    (frameStart true s).activeBox = s.activeBox ∧
    (frameStart false s).result = s.result ∧
    ((frameComplete false true viewW viewH photoW photoH
        (.ok { skipped := false, best_match := none, fps := f }) pt
        s).1).result = some noMatchResult ∧
    ((frameComplete false true viewW viewH photoW photoH
        (.ok { skipped := false, best_match := none, fps := f }) pt
        s).1).activeBox = none := by
  refine ⟨?_, ?_, ?_, ?_, ?_⟩ <;>
    first
      | simp [frameStart]
      | (cases f <;>
          simp [frameComplete, addLog] <;>
          split <;> simp)

/-- C8 counterexample: auto mode is enabled from the initial state, a
streaming submission is issued (capturing the auto flags), the user then
switches back to manual (which clears the overlay box), and afterwards
the in-flight submission completes with a match carrying a box.  The
completion is not ignored: it sets latestResult and re-creates the
overlay box that the mode switch had just cleared, so a stale auto-mode
result reappears after the switch, contradicting the claimed no-op. -/
theorem c8_counterexample :
    (toggleAutoEffect false
        (frameStart false (toggleAutoEffect true initialState))).activeBox
      = none ∧
    ((frameComplete false true 1080 1920 640 480
        (.ok { skipped := false
               best_match := some { label := "dog", confidence := some (4/5),
                                    bbox := some ⟨10, 10, 50, 50⟩ }
               fps := none }) 200
        (toggleAutoEffect false
          (frameStart false (toggleAutoEffect true initialState)))).1).result
      = some { label := "dog", confidence := some (4/5),
               bbox := some ⟨10, 10, 50, 50⟩ } ∧
    ((frameComplete false true 1080 1920 640 480
        (.ok { skipped := false
               best_match := some { label := "dog", confidence := some (4/5),
                                    bbox := some ⟨10, 10, 50, 50⟩ }
               fps := none }) 200
        (toggleAutoEffect false
          (frameStart false (toggleAutoEffect true initialState)))).1
      ).activeBox.isSome = true := by
  refine ⟨?_, ?_, ?_⟩ <;>
    simp [toggleAutoEffect, frameStart, frameComplete, addLog, initialState]

/-- C8 amended: once the effect is cleaned up or the mode flag has left
Auto the loop neither runs another iteration nor arms another timer, and
nothing cancels an already-dispatched request; but a late completion is
not ignored — applied to whatever state the screen is then in, it still
sets latestResult to the match and overlayBox to the mapped box, so a
stale auto-mode result can reappear after the mode switch. -/
theorem c8_stale_completion (a : Bool) (s : SessionState) (lbl : String)
    (c : Option ℚ) (box : BBox) (viewW viewH photoW photoH : ℚ)
    (pt : Nat) :
    loopRuns false a = false ∧
    loopRuns a false = false ∧
    loopSchedulesNext false a = false ∧
    loopSchedulesNext a false = false ∧
    ((frameComplete false true viewW viewH photoW photoH
        (.ok { skipped := false
               best_match := some { label := lbl, confidence := c,
                                    bbox := some box }
               fps := none }) pt s).1).result
      = some { label := lbl, confidence := c, bbox := some box } ∧
    ((frameComplete false true viewW viewH photoW photoH
        (.ok { skipped := false
               best_match := some { label := lbl, confidence := c,
                                    bbox := some box }
               fps := none }) pt s).1).activeBox
      = some { bbox := mapBox viewW viewH photoW photoH box, label := lbl } := by
  refine ⟨?_, ?_, ?_, ?_, ?_, ?_⟩ <;>
    simp [loopRuns, loopSchedulesNext, frameComplete, addLog] <;>
    split <;> simp

/-- C9 counterexample: on a capture of width 0 the spec-described checked
mapper fails, but the code does not: a manual scan from the initial state
with photo dimensions 0 x 480 and a normal match response still runs the
success path — connectivity stays Online, the overlay box is set (to the
degenerate mapped coordinates), no alert is raised and no ERROR entry is
logged.  No InvalidFrame condition exists anywhere in the code. -/
theorem c9_counterexample :
    mapBoxSpecChecked 1080 1920 0 480 ⟨100, 100, 200, 200⟩ = none ∧
    (processFrame true false 1080 1920 0 480
        (.ok { skipped := false
               best_match := some { label := "cat", confidence := some (9/10),
                                    bbox := some ⟨100, 100, 200, 200⟩ }
               fps := none }) 0 initialState).2 = false ∧
    (processFrame true false 1080 1920 0 480
        (.ok { skipped := false
               best_match := some { label := "cat", confidence := some (9/10),
                                    bbox := some ⟨100, 100, 200, 200⟩ }
               fps := none }) 0 initialState).1.isConnected = true ∧
    (processFrame true false 1080 1920 0 480
        (.ok { skipped := false
               best_match := some { label := "cat", confidence := some (9/10),
                                    bbox := some ⟨100, 100, 200, 200⟩ }
               fps := none }) 0 initialState).1.activeBox.isSome = true ∧
    (processFrame true false 1080 1920 0 480
        (.ok { skipped := false
               best_match := some { label := "cat", confidence := some (9/10),
                                    bbox := some ⟨100, 100, 200, 200⟩ }
               fps := none }) 0 initialState).1.logs = initialState.logs := by
  refine ⟨?_, ?_, ?_, ?_, ?_⟩ <;>
    simp [mapBoxSpecChecked, processFrame, frameStart, frameComplete,
      initialState]

/-- C9 amended: the mapper performs no zero-dimension check: a frame of
width zero is processed through the ordinary success path in either mode
— the overlay box is still set, connectivity stays Online and no failure
of any kind is signalled (the scale arithmetic simply proceeds on the
zero dimension; over floats it produces non-finite coordinates rather
than an error). -/
theorem c9_no_zero_guard (s : SessionState) (lbl : String) (c : Option ℚ)
    (box : BBox) (viewW viewH photoH : ℚ) (pt : Nat) :
    (processFrame false true viewW viewH 0 photoH
        (.ok { skipped := false
               best_match := some { label := lbl, confidence := c,
                                    bbox := some box }
               fps := none }) pt s).2 = false ∧
    (processFrame false true viewW viewH 0 photoH
        (.ok { skipped := false
               best_match := some { label := lbl, confidence := c,
                                    bbox := some box }
               fps := none }) pt s).1.isConnected = true ∧
    (processFrame false true viewW viewH 0 photoH
        (.ok { skipped := false
               best_match := some { label := lbl, confidence := c,
                                    bbox := some box }
               fps := none }) pt s).1.activeBox.isSome = true := by
  refine ⟨?_, ?_, ?_⟩ <;>
    simp [processFrame, frameStart, frameComplete, addLog] <;>
    split <;> simp

/-- C10: in auto mode every non-rejected outcome — a skip acknowledgement
as well as a success, with or without a match — advances the frame
counter by exactly one, while a Failure outcome leaves it unchanged; the
frame index submitted with each streaming request therefore counts
completed non-failed cycles, not issued submissions. -/
theorem c10_frame_counter (data : ResponseData) (msg : String)
    (viewW viewH photoW photoH : ℚ) (pt : Nat) (s : SessionState) :
    (processFrame false true viewW viewH photoW photoH
        (.ok data) pt s).1.frameCounter = s.frameCounter + 1 ∧
    (processFrame false true viewW viewH photoW photoH
        (.err msg) pt s).1.frameCounter = s.frameCounter := by
  constructor
  · rcases data with ⟨sk, bm, f⟩
    cases sk <;>
      simp [processFrame, frameStart, frameComplete, addLog] <;>
      repeat' first
        | rfl
        | (split <;> (try simp))
  · simp [processFrame, frameStart, frameComplete, addLog]
